import Mathlib

/-!
Verification of the payment settlement router and gift-wrap messaging core of
the On-Chain Disc Golf repository.

The development shallowly embeds the TypeScript sources:
* the payment router service (`resolveLightningAddress`, `getInvoiceFromLnurl`,
  `resolveAndGetInvoice`, `getRecipientLightningAddress`, `payViaBreez`,
  `payViaCashu`, `sendCashuViaDm`, `routePayment`, `processPayouts`), and
* the NIP-59 gift wrap service (`createRumor`, `createSeal`, `createGiftWrap`,
  `sendGiftWrap`, `unwrapGiftWrap`, `subscribeToGiftWraps`).

External collaborators (profile store, LNURL HTTP endpoints, relay pool,
Cashu capabilities) are modelled as components of an explicit environment
record; each network call that the source performs is recorded in an explicit
request log where a claim depends on which requests are issued.  TypeScript
exceptions are modelled with `Except`; `try`/`catch` blocks are translated to
explicit matches on the `Except` value.  Library cryptography (nostr-tools
`getPublicKey`, `nip44` encrypt/decrypt) is modelled symbolically: keys are
natural numbers, public keys arise from a fixed invertible map, conversation
keys from a commutative pairing satisfying the Diffie-Hellman symmetry the
source relies on, and authenticated encryption is a constructor pairing the
key with the plaintext whose decryption succeeds exactly for the matching
key.
-/

set_option autoImplicit false

namespace OnChainDiscGolf

namespace Payments

/-- JS `String.prototype.split` with a single-character separator,
implemented by structural recursion over the character list so that concrete
instances evaluate inside the kernel. -/
def splitChar (c : Char) : List Char → List (List Char)
  | [] => [[]]
  | x :: xs =>
    match splitChar c xs with
    | r :: rs => if x = c then [] :: r :: rs else (x :: r) :: rs
    | [] => [[x]]

/-- JS `address.split(c)` for a one-character separator. -/
def jsSplit (c : Char) (s : String) : List String :=
  (splitChar c s.data).map String.mk

/-- JS `s.includes(c)` for a one-character needle. -/
def jsContains (c : Char) (s : String) : Bool :=
  s.data.contains c

/-- Recipient profile metadata as used by the router: only the `lud16`
Lightning-address field is consulted (`fetchProfile` result). -/
structure Profile where
  lud16 : Option String
deriving Repr, DecidableEq

/-- HTTP requests issued by the LNURL resolution code, recorded in a log so
that theorems can speak about which requests were (not) issued. -/
inductive HttpReq where
  | lnurlpDiscovery (domain name : String)
  | lnurlCallback (callback : String) (amountMsat : Nat) (comment : Option String)
deriving Repr, DecidableEq

/-- Body of a successful LNURL-pay discovery response, in millisats, before
the sat conversion performed by `resolveLightningAddress`. -/
structure LnurlpData where
  callback : String
  minSendableMsat : Nat
  maxSendableMsat : Nat
  metadata : String
deriving Repr, DecidableEq

/-- Result record returned by the Breez service payment functions
(`BreezPaymentResult` in breezService.ts; the placeholder implementation
only ever populates `success` and `error`). -/
structure BreezPaymentResult where
  success : Bool
  error : Option String
deriving Repr, DecidableEq

/-- Environment of external collaborators.  `fetchProfile` may reject
(`Except.error` models a rejected promise); an LNURL response of `none`
models any failure (network error, non-2xx status, malformed body). -/
structure Env where
  fetchProfile : String → Except String (Option Profile)
  npubEncode : String → String
  breezInitialized : Bool
  lnurlpResponse : String → String → Option LnurlpData
  lnurlCallbackResponse : String → Nat → Option String → Option String
  sendGiftWrapDm : String → String → Except String Unit

/-- Resolved LNURL-pay endpoint with bounds converted to sats
(ceil for min, floor for max, as in `resolveLightningAddress`). -/
structure ResolvedLnurlEndpoint where
  callback : String
  minSendable : Nat
  maxSendable : Nat
  metadata : String
deriving Repr, DecidableEq

/-- Embedding of `resolveLightningAddress` (part_003 lines 499-533):
split the address at `@` (JS destructuring takes the first two parts),
fail without any request when name or domain is missing or empty, then
issue the discovery request and convert millisat bounds to sats. -/
def resolveLightningAddress (env : Env) (lightningAddress : String) :
    Option ResolvedLnurlEndpoint × List HttpReq :=
  let parts := jsSplit '@' lightningAddress
  match parts[0]?, parts[1]? with
  | some name, some domain =>
    if name = "" || domain = "" then (none, [])
    else
      match env.lnurlpResponse domain name with
      | none => (none, [HttpReq.lnurlpDiscovery domain name])
      | some d =>
        (some { callback := d.callback
                minSendable := (d.minSendableMsat + 999) / 1000
                maxSendable := d.maxSendableMsat / 1000
                metadata := d.metadata },
         [HttpReq.lnurlpDiscovery domain name])
  | _, _ => (none, [])

/-- Embedding of `getInvoiceFromLnurl` (part_003 lines 542-572): append
`amount` in msats and an optional non-empty comment to the callback URL and
issue the request; the environment response `none` models any failure
(non-2xx, `status:"ERROR"`, transport error, missing `pr`). -/
def getInvoiceFromLnurl (env : Env) (callback : String) (amountSats : Nat)
    (comment : Option String) : Option String × List HttpReq :=
  let commentParam :=
    match comment with
    | some c => if c = "" then none else some c
    | none => none
  (env.lnurlCallbackResponse callback (amountSats * 1000) commentParam,
   [HttpReq.lnurlCallback callback (amountSats * 1000) commentParam])

/-- Embedding of `resolveAndGetInvoice` (part_003 lines 600-631): resolve the
address, enforce the `[minSendable, maxSendable]` bounds, and only then
request an invoice from the callback. -/
def resolveAndGetInvoice (env : Env) (lightningAddress : String)
    (amountSats : Nat) (comment : Option String) : Option String × List HttpReq :=
  match resolveLightningAddress env lightningAddress with
  | (none, log) => (none, log)
  | (some resolved, log) =>
    if amountSats < resolved.minSendable then (none, log)
    else if resolved.maxSendable < amountSats then (none, log)
    else
      let callbackResult := getInvoiceFromLnurl env resolved.callback amountSats comment
      (callbackResult.1, log ++ callbackResult.2)

inductive AddrSource where
  | kind0
  | npubcash
deriving Repr, DecidableEq

/-- A payable address together with how it was obtained. -/
structure LightningAddressRecord where
  address : String
  source : AddrSource
deriving Repr, DecidableEq

/-- The deterministic npub fallback address `npubEncode(pubkey)@npubx.cash`. -/
def npubFallback (env : Env) (pubkey : String) : LightningAddressRecord :=
  { address := env.npubEncode pubkey ++ "@npubx.cash", source := .npubcash }

/-- The `try` body of `getRecipientLightningAddress` (part_003 lines 641-662):
fetch the profile (which may reject) and accept `lud16` exactly when it is a
non-empty string containing an `@` character (the JS truthiness test
`profile?.lud16 && profile.lud16.includes('@')`). -/
def getRecipientLightningAddressTry (env : Env) (pubkey : String) :
    Except String LightningAddressRecord := do
  let profile ← env.fetchProfile pubkey
  match profile with
  | some p =>
    match p.lud16 with
    | some l =>
      if l ≠ "" ∧ jsContains '@' l then
        pure { address := l, source := .kind0 }
      else
        pure (npubFallback env pubkey)
    | none => pure (npubFallback env pubkey)
  | none => pure (npubFallback env pubkey)

/-- Embedding of `getRecipientLightningAddress` (part_003 lines 637-672):
the `catch` block turns any rejection of the body into the same npub
fallback record, so the function is total. -/
def getRecipientLightningAddress (env : Env) (pubkey : String) :
    LightningAddressRecord :=
  match getRecipientLightningAddressTry env pubkey with
  | .ok r => r
  | .error _ => npubFallback env pubkey

inductive PayMethod where
  | breez
  | lnurl
  | npubcash
  | cashu_dm
  | failed
deriving Repr, DecidableEq

/-- The `PaymentResult` record of part_003. -/
structure PaymentResult where
  success : Bool
  method : PayMethod
  txId : Option String := none
  feeSats : Option Nat := none
  error : Option String := none
deriving Repr, DecidableEq

/-- The `PayoutRecipient` record of part_003. -/
structure PayoutRecipient where
  pubkey : String
  amountSats : Nat
  name : Option String := none
deriving Repr, DecidableEq

/-- Embedding of breezService `getBreezBalance`: the current source is a
placeholder that returns `balanceSats = 0` on both branches (initialized or
not), so the balance is 0 regardless of the environment. -/
def getBreezBalanceSats (_env : Env) : Nat := 0

/-- Embedding of breezService `payLightningAddress`: the placeholder source
always fails, with a different error message depending on initialization. -/
def breezPayLightningAddress (env : Env) (_address : String) (_amountSats : Nat)
    (_comment : Option String) : BreezPaymentResult :=
  if env.breezInitialized then
    { success := false, error := some "Breez SDK not yet initialized - awaiting API key" }
  else
    { success := false, error := some "Breez SDK not initialized" }

/-- Embedding of `payViaBreez` (part_003 lines 682-713).  The source reads
`result.payment?.id` and `result.payment.fees`, but `BreezPaymentResult`
carries no `payment` field, so `txId` and `feeSats` are always undefined. -/
def payViaBreez (env : Env) (lightningAddress : String) (amountSats : Nat)
    (comment : Option String) : PaymentResult :=
  if !env.breezInitialized then
    { success := false, method := .breez, error := some "Breez SDK not initialized" }
  else
    let balanceSats := getBreezBalanceSats env
    if balanceSats < amountSats then
      { success := false, method := .breez
        error := some ("Insufficient Breez balance: " ++ toString balanceSats
          ++ " < " ++ toString amountSats) }
    else
      let result := breezPayLightningAddress env lightningAddress amountSats comment
      { success := result.success, method := .breez
        txId := none, feeSats := none, error := result.error }

/-- Embedding of `payViaCashu` (part_003 lines 719-737): the injected melt
capability may reject; the `catch` converts the rejection into a failed
result carrying the error message. -/
def payViaCashu (invoice : String) (cashuPaymentFn : String → Except String Bool) :
    PaymentResult :=
  match cashuPaymentFn invoice with
  | .ok success =>
    { success := success, method := .lnurl
      error := if success then none else some "Cashu payment failed" }
  | .error msg => { success := false, method := .lnurl, error := some msg }

/-- The JSON payload built by `sendCashuViaDm` for the gift wrap DM. -/
def cashuDmMessage (amountSats : Nat) (cashuToken : String) : String :=
  "\x7b\"type\":\"cashu_payment\",\"amount\":" ++ toString amountSats
    ++ ",\"token\":\"" ++ cashuToken
    ++ "\",\"message\":\"You received " ++ toString amountSats
    ++ " sats from a ChainLinks round!\"\x7d"

/-- Embedding of `sendCashuViaDm` (part_003 lines 743-769): deliver the token
message via the nostrService gift wrap sender; a rejection is caught and
reported as a failed `cashu_dm` result. -/
def sendCashuViaDm (env : Env) (recipientPubkey : String) (amountSats : Nat)
    (cashuToken : String) : PaymentResult :=
  match env.sendGiftWrapDm recipientPubkey (cashuDmMessage amountSats cashuToken) with
  | .ok _ => { success := true, method := .cashu_dm }
  | .error e => { success := false, method := .cashu_dm, error := some e }

/-- The display name used in the Breez payment comment
(`recipient.name || 'player'`, with JS falsiness for the empty string). -/
def recipientDisplayName (recipient : PayoutRecipient) : String :=
  match recipient.name with
  | some n => if n = "" then "player" else n
  | none => "player"

/-- Embedding of `routePayment` (part_003 lines 787-857): resolve the
recipient address, try Breez when initialized, then LNURL via the melt
capability, then the Cashu DM fallback when a token-mint capability is
supplied, and otherwise report the terminal failure result. -/
def routePayment (env : Env) (recipient : PayoutRecipient)
    (cashuPaymentFn : String → Except String Bool)
    (createCashuTokenFn : Option (Nat → Except String String)) : PaymentResult :=
  let la := getRecipientLightningAddress env recipient.pubkey
  let afterBreez : Option PaymentResult :=
    if env.breezInitialized then
      let breezResult := payViaBreez env la.address recipient.amountSats
        (some ("ChainLinks payout to " ++ recipientDisplayName recipient))
      if breezResult.success then some breezResult else none
    else none
  match afterBreez with
  | some r => r
  | none =>
    let invoice := (resolveAndGetInvoice env la.address recipient.amountSats
      (some "ChainLinks payout")).1
    let afterLnurl : Option PaymentResult :=
      match invoice with
      | some inv =>
        let cashuResult := payViaCashu inv cashuPaymentFn
        if cashuResult.success then
          some { cashuResult with
                 method := if la.source = .kind0 then .lnurl else .npubcash }
        else none
      | none => none
    match afterLnurl with
    | some r => r
    | none =>
      let afterDm : Option PaymentResult :=
        match createCashuTokenFn with
        | some createFn =>
          match createFn recipient.amountSats with
          | .ok token =>
            let dmResult := sendCashuViaDm env recipient.pubkey recipient.amountSats token
            if dmResult.success then some dmResult else none
          | .error _ => none
        | none => none
      match afterDm with
      | some r => r
      | none => { success := false, method := .failed, error := some "All payment methods failed" }

/-- Aggregate returned by `processPayouts`; `results` models the JS `Map`
as an insertion-ordered association list. -/
structure PayoutSummary where
  results : List (String × PaymentResult)
  successCount : Nat
  failCount : Nat
  totalPaid : Nat
deriving Repr, DecidableEq

/-- `Map.set` semantics: replace the value at an existing key in place, or
append a new entry. -/
def mapSet (m : List (String × PaymentResult)) (key : String) (val : PaymentResult) :
    List (String × PaymentResult) :=
  if m.any (fun p => p.1 = key) then
    m.map (fun p => if p.1 = key then (key, val) else p)
  else m ++ [(key, val)]

/-- The sequential loop of `processPayouts` (part_003 lines 883-911).
The progress callback and the fixed 500ms inter-recipient delay are pure
I/O effects that do not influence the results, so they are not modelled. -/
def processPayoutsFrom (env : Env) (cashuPaymentFn : String → Except String Bool)
    (createCashuTokenFn : Option (Nat → Except String String)) :
    List PayoutRecipient → PayoutSummary → PayoutSummary
  | [], acc => acc
  | recipient :: rest, acc =>
    let result := routePayment env recipient cashuPaymentFn createCashuTokenFn
    let acc' : PayoutSummary :=
      { results := mapSet acc.results recipient.pubkey result
        successCount := if result.success then acc.successCount + 1 else acc.successCount
        failCount := if result.success then acc.failCount else acc.failCount + 1
        totalPaid := if result.success then acc.totalPaid + recipient.amountSats
          else acc.totalPaid }
    processPayoutsFrom env cashuPaymentFn createCashuTokenFn rest acc'

/-- Embedding of `processPayouts` (part_003 lines 867-921): iterate the
recipients strictly sequentially, recording one routed result per recipient
pubkey in the results map. -/
def processPayouts (env : Env) (cashuPaymentFn : String → Except String Bool)
    (createCashuTokenFn : Option (Nat → Except String String))
    (recipients : List PayoutRecipient) : PayoutSummary :=
  processPayoutsFrom env cashuPaymentFn createCashuTokenFn recipients
    { results := [], successCount := 0, failCount := 0, totalPaid := 0 }

/-- Fixture environment: every collaborator is unavailable (profile fetch
rejects, Breez uninitialized, LNURL endpoints unreachable, relays reject). -/
def envOffline : Env where
  fetchProfile := fun _ => .error "network unreachable"
  npubEncode := fun pk => "npub1" ++ pk
  breezInitialized := false
  lnurlpResponse := fun _ _ => none
  lnurlCallbackResponse := fun _ _ _ => none
  sendGiftWrapDm := fun _ _ => .error "no relay accepted the event"

/-- Fixture environment: the profile fetch rejects, LNURL endpoints are
unreachable (used for the address-resolver fallback evaluation). -/
def envErr : Env where
  fetchProfile := fun _ => .error "profile relay timeout"
  npubEncode := fun pk => "npub1" ++ pk
  breezInitialized := false
  lnurlpResponse := fun _ _ => none
  lnurlCallbackResponse := fun _ _ _ => none
  sendGiftWrapDm := fun _ _ => .error "no relay accepted the event"

/-- Fixture environment: the recipient profile advertises a complete
Lightning address and its endpoint declares bounds of 1000000 to
100000000 msat (1000 to 100000 sats). -/
def envBounds : Env where
  fetchProfile := fun _ => .ok (some { lud16 := some "bob@example.com" })
  npubEncode := fun pk => "npub1" ++ pk
  breezInitialized := false
  lnurlpResponse := fun _ _ =>
    some { callback := "https://example.com/cb", minSendableMsat := 1000000
           maxSendableMsat := 100000000, metadata := "" }
  lnurlCallbackResponse := fun _ _ _ => some "lnbc10n1mockinvoice"
  sendGiftWrapDm := fun _ _ => .ok ()

/-- Fixture environment: the recipient profile carries the degenerate
`lud16` value consisting of a single `@` character. -/
def envAtOnly : Env where
  fetchProfile := fun _ => .ok (some { lud16 := some "@" })
  npubEncode := fun pk => "npub1" ++ pk
  breezInitialized := false
  lnurlpResponse := fun _ _ => none
  lnurlCallbackResponse := fun _ _ _ => none
  sendGiftWrapDm := fun _ _ => .error "no relay accepted the event"

/-- Fixture environment: the profile fetch rejects exactly for pubkey
`"bb"` (the middle recipient of the batch scenario) and reports absent
profiles for everyone else. -/
def envR2Throws : Env where
  fetchProfile := fun pk => if pk = "bb" then .error "profile fetch failed" else .ok none
  npubEncode := fun pk => "npub1" ++ pk
  breezInitialized := false
  lnurlpResponse := fun _ _ => none
  lnurlCallbackResponse := fun _ _ _ => none
  sendGiftWrapDm := fun _ _ => .error "no relay accepted the event"

/-- Fixture recipients for the batch scenario. -/
def fixtureR1 : PayoutRecipient := { pubkey := "aa", amountSats := 10 }

/-- Second fixture recipient (the one whose profile fetch rejects). -/
def fixtureR2 : PayoutRecipient := { pubkey := "bb", amountSats := 20 }

/-- Third fixture recipient. -/
def fixtureR3 : PayoutRecipient := { pubkey := "cc", amountSats := 30 }

/-- The validity predicate stated by the spec for `lud16` (spec section 4.1):
exactly one `@` separating a non-empty name from a non-empty domain.  This
definition follows the words of the spec, for comparison with the weaker
test actually performed by the source. -/
def lud16SpecValid (s : String) : Bool :=
  match jsSplit '@' s with
  | [name, domain] => name ≠ "" && domain ≠ ""
  | _ => false

end Payments

namespace GiftWrap

/-- Modulus of the symbolic key model.  Secret keys are naturals; the model
of nostr-tools `getPublicKey` multiplies by an invertible generator modulo
`P`, and the model of `nip44.v2.utils.getConversationKey` pairs a secret
key with a public key commutatively, so that the Diffie-Hellman symmetry
used by the source holds: the key computed from `(skA, pkB)` coincides with
the key computed from `(skB, pkA)`. -/
def P : Nat := 101

/-- Generator of the symbolic key model (invertible modulo `P`). -/
def G : Nat := 3

/-- Symbolic model of nostr-tools `getPublicKey`. -/
def getPublicKey (sk : Nat) : Nat := (G * sk) % P

/-- Symbolic model of `nip44.v2.utils.getConversationKey`. -/
def getConversationKey (sk pk : Nat) : Nat := (sk * pk) % P

/-- Embedding of `randomNow` (storageTransfer.ts lines 212-216): the current
time minus a sampled offset of strictly less than 24 hours of seconds.  The
sampled values are explicit parameters of the model. -/
def randomNow (now randomOffset : Nat) : Nat := now - randomOffset

/-- Unsigned rumor event (the innermost layer). -/
structure Rumor where
  kind : Nat
  created_at : Nat
  content : String
  tags : List (String × Nat)
  pubkey : Nat
deriving Repr, DecidableEq

/-- Symbolic NIP-44 ciphertext of the JSON serialization of a rumor:
decryption recovers the rumor exactly when the matching conversation key is
supplied. -/
structure SealedRumor where
  key : Nat
  rumor : Rumor
deriving Repr, DecidableEq

/-- Signed seal event (kind 13).  The `id` and `sig` fields added by
`finalizeEvent` are not modelled: no claim concerns them and no code in the
embedded functions reads them back. -/
structure SealEvent where
  kind : Nat
  created_at : Nat
  content : SealedRumor
  tags : List (String × Nat)
  pubkey : Nat
deriving Repr, DecidableEq

/-- Symbolic NIP-44 ciphertext of the JSON serialization of a seal. -/
structure SealedSeal where
  key : Nat
  sealEvent : SealEvent
deriving Repr, DecidableEq

/-- Signed gift wrap event (kind 1059). -/
structure GiftWrapEvent where
  kind : Nat
  created_at : Nat
  content : SealedSeal
  tags : List (String × Nat)
  pubkey : Nat
deriving Repr, DecidableEq

/-- Symbolic NIP-44 encryption of a rumor JSON under a conversation key. -/
def nip44EncryptRumor (rumor : Rumor) (key : Nat) : SealedRumor :=
  { key := key, rumor := rumor }

/-- Symbolic NIP-44 decryption of a rumor: fails (throws) unless the key
matches the one the ciphertext was produced with. -/
def nip44DecryptRumor (c : SealedRumor) (key : Nat) : Except String Rumor :=
  if c.key = key then .ok c.rumor else .error "Failed to decrypt message"

/-- Symbolic NIP-44 encryption of a seal JSON under a conversation key. -/
def nip44EncryptSeal (sealEvent : SealEvent) (key : Nat) : SealedSeal :=
  { key := key, sealEvent := sealEvent }

/-- Symbolic NIP-44 decryption of a seal. -/
def nip44DecryptSeal (c : SealedSeal) (key : Nat) : Except String SealEvent :=
  if c.key = key then .ok c.sealEvent else .error "Failed to decrypt message"

/-- Embedding of `createRumor` (storageTransfer.ts lines 221-229): the
created_at of the rumor is the actual current time, not randomized. -/
def createRumor (content : String) (senderPubkey : Nat) (kind : Nat) (now : Nat) :
    Rumor :=
  { kind := kind, created_at := now, content := content, tags := [], pubkey := senderPubkey }

/-- Embedding of `createSeal` (storageTransfer.ts lines 234-253): encrypt the
rumor to the recipient under the sender-recipient conversation key, with a
randomized created_at. -/
def createSeal (rumor : Rumor) (senderSecretKey : Nat) (recipientPubkey : Nat)
    (now randomOffset : Nat) : SealEvent :=
  { kind := 13
    created_at := randomNow now randomOffset
    content := nip44EncryptRumor rumor (getConversationKey senderSecretKey recipientPubkey)
    tags := []
    pubkey := getPublicKey senderSecretKey }

/-- Embedding of `createGiftWrap` (storageTransfer.ts lines 258-280): encrypt
the seal under a fresh ephemeral conversation key, tag only the recipient,
sign with (and expose only) the ephemeral key, with an independently
randomized created_at.  The sampled ephemeral secret is a parameter. -/
def createGiftWrap (sealEvent : SealEvent) (recipientPubkey : Nat) (ephemeralSk : Nat)
    (now randomOffset : Nat) : GiftWrapEvent :=
  { kind := 1059
    created_at := randomNow now randomOffset
    content := nip44EncryptSeal sealEvent (getConversationKey ephemeralSk recipientPubkey)
    tags := [("p", recipientPubkey)]
    pubkey := getPublicKey ephemeralSk }

/-- The random draws consumed by one wrap: the clock readings at each layer
and the sampled offsets and ephemeral secret. -/
structure WrapRandomness where
  nowRumor : Nat
  nowSeal : Nat
  sealOffset : Nat
  nowWrap : Nat
  wrapOffset : Nat
  ephemeralSk : Nat
deriving Repr, DecidableEq

/-- The rumor-seal-wrap composition performed by `sendGiftWrap`
(storageTransfer.ts lines 299-308) before publishing. -/
def makeGiftWrap (content : String) (senderSecretKey : Nat) (recipientPubkey : Nat)
    (kind : Nat) (rnd : WrapRandomness) : GiftWrapEvent :=
  let rumor := createRumor content (getPublicKey senderSecretKey) kind rnd.nowRumor
  let sealEvent := createSeal rumor senderSecretKey recipientPubkey rnd.nowSeal rnd.sealOffset
  createGiftWrap sealEvent recipientPubkey rnd.ephemeralSk rnd.nowWrap rnd.wrapOffset

/-- Embedding of `sendGiftWrap` (storageTransfer.ts lines 285-342): build the
gift wrap, fan it out to every relay (`relayAccepts` gives each relay's
accept/reject outcome; `Promise.allSettled` attempts all of them and
individual rejections are only counted), and raise a delivery error exactly
when no relay accepted.  The outer catch rethrows the generic message. -/
def sendGiftWrap (content : String) (senderSecretKey : Nat) (recipientPubkey : Nat)
    (relays : List String) (kind : Nat) (rnd : WrapRandomness)
    (relayAccepts : String → Bool) : Except String Unit :=
  let _giftWrap := makeGiftWrap content senderSecretKey recipientPubkey kind rnd
  let successful := (relays.filter relayAccepts).length
  if successful = 0 then .error "Failed to send encrypted message" else .ok ()

/-- Embedding of `unwrapGiftWrap` (storageTransfer.ts lines 347-371): decrypt
the outer layer with the recipient secret against the event pubkey (the
ephemeral key), then the seal content against the seal pubkey (the true
sender); any decryption failure propagates as an error. -/
def unwrapGiftWrap (giftWrapEvent : GiftWrapEvent) (recipientSecretKey : Nat) :
    Except String Rumor := do
  let sealEvent ← nip44DecryptSeal giftWrapEvent.content
    (getConversationKey recipientSecretKey giftWrapEvent.pubkey)
  let rumor ← nip44DecryptRumor sealEvent.content
    (getConversationKey recipientSecretKey sealEvent.pubkey)
  return rumor

/-- State of the relay pool subscription bookkeeping: a fresh-id counter and
the list of currently active subscriptions, each recorded with the pubkey
whose gift wraps it filters for. -/
structure RelayPoolState where
  nextId : Nat
  active : List (Nat × String)
deriving Repr, DecidableEq

/-- Model of `pool.subscribeMany`: open a new subscription and return its
handle; nothing else in the pool state changes. -/
def subscribeMany (st : RelayPoolState) (targetPubkey : String) :
    RelayPoolState × Nat :=
  ({ nextId := st.nextId + 1, active := (st.nextId, targetPubkey) :: st.active },
   st.nextId)

/-- Embedding of `subscribeToGiftWraps` (storageTransfer.ts lines 376-409):
the function opens a new filtered subscription via `pool.subscribeMany` and
returns a cleanup handle for it; it performs no other state change (in
particular it does not consult or dispose previously opened
subscriptions). -/
def subscribeToGiftWraps (st : RelayPoolState) (userPubkey : String) :
    RelayPoolState × Nat :=
  subscribeMany st userPubkey

/-- The cleanup function returned by `subscribeToGiftWraps`
(`sub.close()`): closes exactly the subscription with the given handle. -/
def closeSubscription (st : RelayPoolState) (subId : Nat) : RelayPoolState :=
  { st with active := st.active.filter (fun p => p.1 ≠ subId) }

/-- Fixture random draws for the gift wrap theorems: a first invocation. -/
def rndW1 : WrapRandomness :=
  { nowRumor := 1700000000, nowSeal := 1700000000, sealOffset := 5000
    nowWrap := 1700000000, wrapOffset := 6000, ephemeralSk := 7 }

/-- Fixture random draws for a second invocation whose sampled ephemeral
secret happens to repeat and whose sampled wrap timestamp happens to
collide with the first invocation (1700000500 - 6500 = 1700000000 - 6000),
even though the seal offset differs. -/
def rndW2 : WrapRandomness :=
  { nowRumor := 1700000000, nowSeal := 1700000000, sealOffset := 4000
    nowWrap := 1700000500, wrapOffset := 6500, ephemeralSk := 7 }

/-- Fixture random draws with a distinct ephemeral secret and distinct
sampled timestamps. -/
def rndW3 : WrapRandomness :=
  { nowRumor := 1700000100, nowSeal := 1700000100, sealOffset := 300
    nowWrap := 1700000200, wrapOffset := 400, ephemeralSk := 8 }

/-- Fixture random draws for the delivery-failure evaluation. -/
def rndW4 : WrapRandomness :=
  { nowRumor := 1700000300, nowSeal := 1700000300, sealOffset := 11
    nowWrap := 1700000300, wrapOffset := 22, ephemeralSk := 9 }

/-- Fixture random draws for the uniqueness evaluation, first draw. -/
def rndW5 : WrapRandomness :=
  { nowRumor := 1700001000, nowSeal := 1700001000, sealOffset := 100
    nowWrap := 1700001000, wrapOffset := 200, ephemeralSk := 11 }

/-- Fixture random draws for the uniqueness evaluation, second draw. -/
def rndW6 : WrapRandomness :=
  { nowRumor := 1700001050, nowSeal := 1700001050, sealOffset := 150
    nowWrap := 1700001050, wrapOffset := 250, ephemeralSk := 12 }

end GiftWrap

namespace Payments

theorem resolveLightningAddress_log_discovery_only (env : Env) (addr : String)
    (cb : String) (amt : Nat) (cmt : Option String) :
    HttpReq.lnurlCallback cb amt cmt ∉ (resolveLightningAddress env addr).2 := by
  unfold resolveLightningAddress
  dsimp only
  split
  · split
    · simp
    · split <;> simp
  · simp

/-- C4: for every resolvable Lightning address and every amount strictly
below the resolved minSendable or strictly above the resolved maxSendable,
`resolveAndGetInvoice` returns no invoice and issues no LNURL callback
request (only the discovery request ever appears in the request log). -/
theorem resolveAndGetInvoice_out_of_bounds (env : Env) (addr : String)
    (amountSats : Nat) (comment : Option String)
    (endpoint : ResolvedLnurlEndpoint) (log : List HttpReq)
    (hres : resolveLightningAddress env addr = (some endpoint, log))
    (hout : amountSats < endpoint.minSendable ∨ endpoint.maxSendable < amountSats) :
    (resolveAndGetInvoice env addr amountSats comment).1 = none ∧
    ∀ cb amt cmt, HttpReq.lnurlCallback cb amt cmt
      ∉ (resolveAndGetInvoice env addr amountSats comment).2 := by
  have hlog : ∀ cb amt cmt, HttpReq.lnurlCallback cb amt cmt ∉ log := by
    intro cb amt cmt
    have h := resolveLightningAddress_log_discovery_only env addr cb amt cmt
    rw [hres] at h
    exact h
  unfold resolveAndGetInvoice
  rw [hres]
  dsimp only
  by_cases hmin : amountSats < endpoint.minSendable
  · rw [if_pos hmin]
    exact ⟨rfl, hlog⟩
  · rcases hout with h | h
    · exact absurd h hmin
    · rw [if_neg hmin, if_pos h]
      exact ⟨rfl, hlog⟩

/-- Concrete instance of the bounds theorem: the fixture endpoint resolves
to bounds 1000-100000 sats and a request of 10 sats yields no invoice and
no callback request. -/
theorem resolveAndGetInvoice_out_of_bounds_witness :
    (resolveAndGetInvoice envBounds "bob@example.com" 10 (some "hi")).1 = none ∧
    ∀ cb amt cmt, HttpReq.lnurlCallback cb amt cmt
      ∉ (resolveAndGetInvoice envBounds "bob@example.com" 10 (some "hi")).2 :=
  resolveAndGetInvoice_out_of_bounds envBounds "bob@example.com" 10 (some "hi")
    { callback := "https://example.com/cb", minSendable := 1000
      maxSendable := 100000, metadata := "" }
    [HttpReq.lnurlpDiscovery "example.com" "bob"]
    (by decide) (by decide)

/-- C2: with the Breez executor uninitialized, LNURL resolution yielding no
invoice for the recipient address, and no token-mint capability supplied,
`routePayment` returns the terminal failed result (and no other method). -/
theorem routePayment_no_rails (env : Env) (recipient : PayoutRecipient)
    (cashuPaymentFn : String → Except String Bool)
    (hB : env.breezInitialized = false)
    (hInv : (resolveAndGetInvoice env
        (getRecipientLightningAddress env recipient.pubkey).address
        recipient.amountSats (some "ChainLinks payout")).1 = none) :
    routePayment env recipient cashuPaymentFn none
      = { success := false, method := .failed, error := some "All payment methods failed" } := by
  unfold routePayment
  rw [hB]
  simp [hInv]

/-- Concrete instance: with every collaborator offline, a payout of 25 sats
to pubkey "aa" with no token-mint capability fails terminally. -/
theorem routePayment_no_rails_witness :
    routePayment envOffline { pubkey := "aa", amountSats := 25 } (fun _ => Except.ok false) none
      = { success := false, method := .failed, error := some "All payment methods failed" } :=
  routePayment_no_rails envOffline { pubkey := "aa", amountSats := 25 }
    (fun _ => Except.ok false) rfl (by decide)

/-- C9: `getRecipientLightningAddress` never raises: any rejection of its
body (network failure, malformed profile) produces the same deterministic
npub fallback record as an absent profile does, so the call always returns
a usable address record. -/
theorem getRecipientLightningAddress_never_raises (env : Env) (pubkey : String) :
    (∀ e, getRecipientLightningAddressTry env pubkey = .error e →
      getRecipientLightningAddress env pubkey = npubFallback env pubkey) ∧
    (env.fetchProfile pubkey = .ok none →
      getRecipientLightningAddress env pubkey = npubFallback env pubkey) := by
  constructor
  · intro e he
    unfold getRecipientLightningAddress
    rw [he]
  · intro hn
    unfold getRecipientLightningAddress getRecipientLightningAddressTry
    rw [hn]
    rfl

/-- Concrete instance: with a rejecting profile store the resolver returns
the npub fallback record instead of raising. -/
theorem getRecipientLightningAddress_never_raises_witness :
    getRecipientLightningAddress envErr "aa" = npubFallback envErr "aa" :=
  (getRecipientLightningAddress_never_raises envErr "aa").1 "profile relay timeout" rfl

/-- C7 counterexample: the degenerate lud16 value `"@"` (empty name and
empty domain) is not valid in the sense the claim states, yet the resolver
returns it tagged `kind0`: the source only tests `includes('@')`. -/
theorem getRecipientLightningAddress_atOnly_counterexample :
    getRecipientLightningAddress envAtOnly "aa" = { address := "@", source := .kind0 } ∧
    lud16SpecValid "@" = false := by
  constructor
  · rfl
  · rfl

/-- C7 amended: a present lud16 is returned tagged `kind0` exactly when it
is a non-empty string containing at least one `@` character (the source
does not check that the `@` is unique or that name and domain are
non-empty); any other lud16 falls through to the npub fallback. -/
theorem getRecipientLightningAddress_lud16_test (env : Env) (pubkey : String)
    (p : Profile) (l : String)
    (hp : env.fetchProfile pubkey = .ok (some p)) (hl : p.lud16 = some l) :
    (l ≠ "" ∧ jsContains '@' l = true →
      getRecipientLightningAddress env pubkey = { address := l, source := .kind0 }) ∧
    ((l = "" ∨ jsContains '@' l = false) →
      getRecipientLightningAddress env pubkey = npubFallback env pubkey) := by
  unfold getRecipientLightningAddress getRecipientLightningAddressTry
  rw [hp]
  simp only [Bind.bind, Except.bind, hl]
  constructor
  · intro hvalid
    rw [if_pos hvalid]
    rfl
  · intro hinvalid
    rw [if_neg (by simp [not_and_or]; tauto)]
    rfl

/-- Concrete instance: a profile advertising `bob@example.com` resolves to
that address tagged `kind0`. -/
theorem getRecipientLightningAddress_lud16_test_witness :
    getRecipientLightningAddress envBounds "aa"
      = { address := "bob@example.com", source := .kind0 } :=
  (getRecipientLightningAddress_lud16_test envBounds "aa"
    { lud16 := some "bob@example.com" } "bob@example.com" rfl rfl).1 (by decide)

theorem mapSet_of_not_mem (m : List (String × PaymentResult)) (key : String)
    (val : PaymentResult) (h : m.any (fun p => p.1 = key) = false) :
    mapSet m key val = m ++ [(key, val)] := by
  simp [mapSet, h]

theorem processPayoutsFrom_results (env : Env)
    (cashuPaymentFn : String → Except String Bool)
    (createCashuTokenFn : Option (Nat → Except String String))
    (recipients : List PayoutRecipient) :
    ∀ acc : PayoutSummary,
      (recipients.map PayoutRecipient.pubkey).Nodup →
      (∀ r ∈ recipients, acc.results.any (fun p => p.1 = r.pubkey) = false) →
      (processPayoutsFrom env cashuPaymentFn createCashuTokenFn recipients acc).results
        = acc.results ++ recipients.map
            (fun r => (r.pubkey, routePayment env r cashuPaymentFn createCashuTokenFn)) := by
  induction recipients with
  | nil =>
    intro acc _ _
    simp [processPayoutsFrom]
  | cons r rest ih =>
    intro acc hnd hfree
    have hr : acc.results.any (fun p => p.1 = r.pubkey) = false :=
      hfree r (List.mem_cons_self r rest)
    have hnotin : r.pubkey ∉ rest.map PayoutRecipient.pubkey :=
      (List.nodup_cons.mp hnd).1
    have hnd' : (rest.map PayoutRecipient.pubkey).Nodup :=
      (List.nodup_cons.mp hnd).2
    simp only [processPayoutsFrom]
    rw [mapSet_of_not_mem _ _ _ hr]
    rw [ih _ hnd' ?_]
    · simp
    · intro r' hr'
      have hne : r.pubkey ≠ r'.pubkey := by
        intro he
        exact hnotin (he ▸ List.mem_map_of_mem PayoutRecipient.pubkey hr')
      simp only [List.any_append]
      rw [hfree r' (List.mem_cons_of_mem r hr')]
      simp [hne]

theorem lookup_route_pairs (env : Env) (cashuPaymentFn : String → Except String Bool)
    (createCashuTokenFn : Option (Nat → Except String String))
    (l : List PayoutRecipient) :
    ∀ r ∈ l, (l.map PayoutRecipient.pubkey).Nodup →
      (l.map (fun x => (x.pubkey, routePayment env x cashuPaymentFn createCashuTokenFn))).lookup
        r.pubkey = some (routePayment env r cashuPaymentFn createCashuTokenFn) := by
  induction l with
  | nil =>
    intro r hr
    cases hr
  | cons x xs ih =>
    intro r hr hnd
    rcases List.mem_cons.mp hr with rfl | hr'
    · simp [List.lookup]
    · have hx : r.pubkey ≠ x.pubkey := by
        intro he
        exact (List.nodup_cons.mp hnd).1
          (he ▸ List.mem_map_of_mem PayoutRecipient.pubkey hr')
      have hbeq : (r.pubkey == x.pubkey) = false := by simp [hx]
      simp only [List.map_cons, List.lookup, hbeq]
      exact ih r hr' (List.nodup_cons.mp hnd).2

theorem countP_route_pairs (env : Env) (cashuPaymentFn : String → Except String Bool)
    (createCashuTokenFn : Option (Nat → Except String String))
    (l : List PayoutRecipient) :
    ∀ r ∈ l, (l.map PayoutRecipient.pubkey).Nodup →
      (l.map (fun x => (x.pubkey, routePayment env x cashuPaymentFn createCashuTokenFn))).countP
        (fun p => p.1 = r.pubkey) = 1 := by
  induction l with
  | nil =>
    intro r hr
    cases hr
  | cons x xs ih =>
    intro r hr hnd
    have hnotin : x.pubkey ∉ xs.map PayoutRecipient.pubkey := (List.nodup_cons.mp hnd).1
    rcases List.mem_cons.mp hr with rfl | hr'
    · simp only [List.map_cons]
      rw [List.countP_cons_of_pos _ _ (by simp)]
      have hz : (xs.map (fun x => (x.pubkey,
          routePayment env x cashuPaymentFn createCashuTokenFn))).countP
          (fun p => p.1 = r.pubkey) = 0 := by
        rw [List.countP_eq_zero]
        intro p hp
        obtain ⟨y, hy, rfl⟩ := List.mem_map.mp hp
        simp only [decide_eq_true_eq]
        intro he
        exact hnotin (he ▸ List.mem_map_of_mem PayoutRecipient.pubkey hy)
      rw [hz]
    · have hx : x.pubkey ≠ r.pubkey := by
        intro he
        exact hnotin (he ▸ List.mem_map_of_mem PayoutRecipient.pubkey hr')
      simp only [List.map_cons]
      rw [List.countP_cons_of_neg _ _ (by simp [hx])]
      exact ih r hr' (List.nodup_cons.mp hnd).2

/-- C3: `processPayouts` visits the recipients strictly sequentially (the
loop is a fold) and, when the recipients carry pairwise distinct pubkeys,
the results map has exactly one entry per recipient, keyed by that
recipient's pubkey, whose value is exactly the result `routePayment`
computes for that recipient alone — so one recipient's failure (for
example a rejecting profile fetch) cannot affect any other entry. -/
theorem processPayouts_one_entry_each (env : Env)
    (cashuPaymentFn : String → Except String Bool)
    (createCashuTokenFn : Option (Nat → Except String String))
    (recipients : List PayoutRecipient)
    (hnd : (recipients.map PayoutRecipient.pubkey).Nodup) :
    (processPayouts env cashuPaymentFn createCashuTokenFn recipients).results.length
      = recipients.length ∧
    ∀ r ∈ recipients,
      (processPayouts env cashuPaymentFn createCashuTokenFn recipients).results.lookup
        r.pubkey = some (routePayment env r cashuPaymentFn createCashuTokenFn) ∧
      (processPayouts env cashuPaymentFn createCashuTokenFn recipients).results.countP
        (fun p => p.1 = r.pubkey) = 1 := by
  have hres : (processPayouts env cashuPaymentFn createCashuTokenFn recipients).results
      = recipients.map
          (fun r => (r.pubkey, routePayment env r cashuPaymentFn createCashuTokenFn)) := by
    unfold processPayouts
    rw [processPayoutsFrom_results env cashuPaymentFn createCashuTokenFn recipients _ hnd
      (by intro r _; rfl)]
    simp
  rw [hres]
  refine ⟨by simp, ?_⟩
  intro r hr
  exact ⟨lookup_route_pairs env cashuPaymentFn createCashuTokenFn recipients r hr hnd,
    countP_route_pairs env cashuPaymentFn createCashuTokenFn recipients r hr hnd⟩

/-- Concrete instance: a batch of three recipients where the middle
recipient's profile fetch rejects still yields exactly 3 result entries,
and the first and third entries equal their standalone routing results. -/
theorem processPayouts_one_entry_each_witness :
    (processPayouts envR2Throws (fun _ => Except.ok false) none
        [fixtureR1, fixtureR2, fixtureR3]).results.length = 3 ∧
    (processPayouts envR2Throws (fun _ => Except.ok false) none
        [fixtureR1, fixtureR2, fixtureR3]).results.lookup "aa"
      = some (routePayment envR2Throws fixtureR1 (fun _ => Except.ok false) none) ∧
    (processPayouts envR2Throws (fun _ => Except.ok false) none
        [fixtureR1, fixtureR2, fixtureR3]).results.lookup "cc"
      = some (routePayment envR2Throws fixtureR3 (fun _ => Except.ok false) none) := by
  have h := processPayouts_one_entry_each envR2Throws (fun _ => Except.ok false) none
    [fixtureR1, fixtureR2, fixtureR3] (by decide)
  exact ⟨h.1, (h.2 fixtureR1 (by decide)).1, (h.2 fixtureR3 (by decide)).1⟩

end Payments

namespace GiftWrap

theorem conversationKey_symm (a b : Nat) :
    getConversationKey a (getPublicKey b) = getConversationKey b (getPublicKey a) := by
  unfold getConversationKey getPublicKey G P
  rw [Nat.mul_mod a, Nat.mul_mod b, Nat.mod_mod_of_dvd _ dvd_rfl,
    Nat.mod_mod_of_dvd _ dvd_rfl, ← Nat.mul_mod, ← Nat.mul_mod]
  ring_nf

theorem unwrap_makeGiftWrap (content : String) (skA skB kind : Nat)
    (rnd : WrapRandomness) :
    unwrapGiftWrap (makeGiftWrap content skA (getPublicKey skB) kind rnd) skB
      = .ok (createRumor content (getPublicKey skA) kind rnd.nowRumor) := by
  unfold unwrapGiftWrap makeGiftWrap createGiftWrap createSeal
  simp only [nip44EncryptSeal, nip44EncryptRumor, nip44DecryptSeal, nip44DecryptRumor]
  rw [if_pos (conversationKey_symm rnd.ephemeralSk skB)]
  simp only [Bind.bind, Except.bind]
  rw [if_pos (conversationKey_symm skA skB)]
  rfl

/-- C1: unwrapping with the recipient secret the gift wrap produced by the
rumor-seal-wrap composition of `sendGiftWrap` recovers a rumor whose content
is the original content string and whose pubkey is the sender's public key,
for every content, sender secret, recipient key pair and random draw. -/
theorem giftwrap_roundtrip (content : String) (skA skB kind : Nat)
    (rnd : WrapRandomness) :
    ∃ rumor : Rumor,
      unwrapGiftWrap (makeGiftWrap content skA (getPublicKey skB) kind rnd) skB
        = .ok rumor ∧
      rumor.content = content ∧ rumor.pubkey = getPublicKey skA :=
  ⟨createRumor content (getPublicKey skA) kind rnd.nowRumor,
    unwrap_makeGiftWrap content skA skB kind rnd, rfl, rfl⟩

/-- C5: the relay fan-out of `sendGiftWrap` succeeds exactly when at least
one relay accepts the event; individual relay failures do not fail the
call, and when every relay rejects the call raises the delivery error. -/
theorem sendGiftWrap_delivery (content : String) (skA pkB kind : Nat)
    (rnd : WrapRandomness) (relays : List String) (relayAccepts : String → Bool) :
    (sendGiftWrap content skA pkB relays kind rnd relayAccepts = .ok () ↔
      relays.any relayAccepts = true) ∧
    (relays.any relayAccepts = false →
      sendGiftWrap content skA pkB relays kind rnd relayAccepts
        = .error "Failed to send encrypted message") := by
  unfold sendGiftWrap
  by_cases h : relays.any relayAccepts = true
  · obtain ⟨x, hx, hpx⟩ := List.any_eq_true.mp h
    have hlen : (relays.filter relayAccepts).length ≠ 0 := by
      intro h0
      rw [List.length_eq_zero] at h0
      exact List.filter_eq_nil.mp h0 x hx hpx
    rw [if_neg hlen]
    exact ⟨⟨fun _ => h, fun _ => rfl⟩, fun hf => absurd h (by simp [hf])⟩
  · have hnone : ∀ a ∈ relays, ¬relayAccepts a = true := by
      intro a ha hpa
      exact h (List.any_eq_true.mpr ⟨a, ha, hpa⟩)
    have hlen : (relays.filter relayAccepts).length = 0 := by
      rw [List.length_eq_zero]
      exact List.filter_eq_nil.mpr hnone
    rw [if_pos hlen]
    constructor
    · constructor
      · intro habs
        exact absurd habs (by simp)
      · intro htrue
        exact absurd htrue h
    · intro _
      rfl

/-- Concrete instance: when both relays reject the event, `sendGiftWrap`
raises the delivery error. -/
theorem sendGiftWrap_delivery_witness :
    sendGiftWrap "token" 3 (getPublicKey 4) ["wss://relay.a", "wss://relay.b"] 14 rndW4
      (fun _ => false) = .error "Failed to send encrypted message" :=
  (sendGiftWrap_delivery "token" 3 (getPublicKey 4) 14 rndW4
    ["wss://relay.a", "wss://relay.b"] (fun _ => false)).2 (by decide)

set_option maxRecDepth 10000 in
theorem getPublicKey_injOn : ∀ a : Nat, a < P → ∀ b : Nat, b < P →
    getPublicKey a = getPublicKey b → a = b := by
  decide

/-- C8 counterexample: the randomness consumed by a wrap call is sampled
independently, and two invocations with identical sender, recipient and
content whose sampled ephemeral secrets repeat and whose sampled wrap
timestamps collide (rndW1 and rndW2 differ, yet 1700000000 - 6000 =
1700000500 - 6500 and both drew ephemeral secret 7) produce gift wraps
with the same outer public key and the same created_at, so the claimed
unconditional uniqueness fails. -/
theorem giftwrap_uniqueness_counterexample :
    (makeGiftWrap "hi" 3 (getPublicKey 4) 14 rndW1).pubkey
      = (makeGiftWrap "hi" 3 (getPublicKey 4) 14 rndW2).pubkey ∧
    (makeGiftWrap "hi" 3 (getPublicKey 4) 14 rndW1).created_at
      = (makeGiftWrap "hi" 3 (getPublicKey 4) 14 rndW2).created_at ∧
    rndW1 ≠ rndW2 := by
  refine ⟨by decide, by decide, by decide⟩

/-- C8 amended: two wrap calls with identical sender, recipient and content
produce gift wraps with different outer public keys whenever the two
independently sampled ephemeral secrets differ (within the scalar space),
and different created_at values whenever the two sampled outer timestamps
differ — which is the case with overwhelming probability for fresh
randomness, but is not unconditional. -/
theorem giftwrap_uniqueness_fresh (content : String) (skA pkB kind : Nat)
    (rndA rndB : WrapRandomness)
    (hA : rndA.ephemeralSk < P) (hB : rndB.ephemeralSk < P) :
    (rndA.ephemeralSk ≠ rndB.ephemeralSk →
      (makeGiftWrap content skA pkB kind rndA).pubkey
        ≠ (makeGiftWrap content skA pkB kind rndB).pubkey) ∧
    (rndA.nowWrap - rndA.wrapOffset ≠ rndB.nowWrap - rndB.wrapOffset →
      (makeGiftWrap content skA pkB kind rndA).created_at
        ≠ (makeGiftWrap content skA pkB kind rndB).created_at) := by
  constructor
  · intro hne heq
    exact hne (getPublicKey_injOn _ hA _ hB heq)
  · intro hne heq
    exact hne heq

/-- Concrete instance: two draws with distinct ephemeral secrets give gift
wraps with distinct outer public keys. -/
theorem giftwrap_uniqueness_fresh_witness :
    (makeGiftWrap "hi" 3 (getPublicKey 4) 14 rndW5).pubkey
      ≠ (makeGiftWrap "hi" 3 (getPublicKey 4) 14 rndW6).pubkey :=
  (giftwrap_uniqueness_fresh "hi" 3 (getPublicKey 4) 14 rndW5 rndW6
    (by decide) (by decide)).1 (by decide)

/-- C10: the rumor's created_at is the exact current clock reading (not
randomized); the seal's and gift wrap's created_at are the respective clock
readings minus a sampled offset of strictly less than 24 hours, hence lie
within the preceding 24 hours; decryption recovers the rumor with its exact
timestamp; and whenever an offset is nonzero that envelope timestamp
differs from the rumor's. -/
theorem rumor_exact_time_envelopes_randomized (content : String)
    (skA skB kind : Nat) (rnd : WrapRandomness)
    (hs : rnd.sealOffset < 86400) (hw : rnd.wrapOffset < 86400)
    (hns : 86400 ≤ rnd.nowSeal) (hnw : 86400 ≤ rnd.nowWrap) :
    (createRumor content (getPublicKey skA) kind rnd.nowRumor).created_at
      = rnd.nowRumor ∧
    (createSeal (createRumor content (getPublicKey skA) kind rnd.nowRumor) skA
      (getPublicKey skB) rnd.nowSeal rnd.sealOffset).created_at
      = rnd.nowSeal - rnd.sealOffset ∧
    (makeGiftWrap content skA (getPublicKey skB) kind rnd).created_at
      = rnd.nowWrap - rnd.wrapOffset ∧
    rnd.nowSeal - 86400 < rnd.nowSeal - rnd.sealOffset ∧
    rnd.nowSeal - rnd.sealOffset ≤ rnd.nowSeal ∧
    rnd.nowWrap - 86400 < rnd.nowWrap - rnd.wrapOffset ∧
    rnd.nowWrap - rnd.wrapOffset ≤ rnd.nowWrap ∧
    unwrapGiftWrap (makeGiftWrap content skA (getPublicKey skB) kind rnd) skB
      = .ok (createRumor content (getPublicKey skA) kind rnd.nowRumor) ∧
    (rnd.sealOffset ≠ 0 → rnd.nowSeal = rnd.nowRumor →
      rnd.nowSeal - rnd.sealOffset ≠ rnd.nowRumor) ∧
    (rnd.wrapOffset ≠ 0 → rnd.nowWrap = rnd.nowRumor →
      rnd.nowWrap - rnd.wrapOffset ≠ rnd.nowRumor) :=
  ⟨rfl, rfl, rfl, by omega, by omega, by omega, by omega,
    unwrap_makeGiftWrap content skA skB kind rnd,
    by intro h0 hEq; omega, by intro h0 hEq; omega⟩

/-- Concrete instance: for the fixture draw rndW3 the wrap timestamp is the
sampled clock reading minus the sampled offset. -/
theorem rumor_exact_time_witness :
    (makeGiftWrap "gg" 3 (getPublicKey 4) 14 rndW3).created_at
      = rndW3.nowWrap - rndW3.wrapOffset :=
  (rumor_exact_time_envelopes_randomized "gg" 3 4 14 rndW3
    (by decide) (by decide) (by decide) (by decide)).2.2.1

/-- C6 counterexample: two consecutive `subscribeToGiftWraps` calls for the
same identity leave two subscriptions active — the function does not
dispose of the previously active subscription. -/
theorem subscribeToGiftWraps_two_active_counterexample :
    ((subscribeToGiftWraps
        (subscribeToGiftWraps { nextId := 0, active := [] } "alice").1
        "alice").1.active.length = 2) ∧
    (((subscribeToGiftWraps
        (subscribeToGiftWraps { nextId := 0, active := [] } "alice").1
        "alice").1.active.filter (fun p => p.2 = "alice")).length = 2) := by
  exact ⟨rfl, rfl⟩

/-- C6 amended: `subscribeToGiftWraps` opens an additional subscription
without disposing of any previously active one (every previously active
subscription stays active and the active count grows by one); the disposer
it returns closes exactly the subscription it created. -/
theorem subscribeToGiftWraps_accumulates (st : RelayPoolState) (userPubkey : String)
    (hfresh : ∀ p ∈ st.active, p.1 < st.nextId) :
    (subscribeToGiftWraps st userPubkey).1.active.length = st.active.length + 1 ∧
    (∀ p ∈ st.active, p ∈ (subscribeToGiftWraps st userPubkey).1.active) ∧
    (closeSubscription (subscribeToGiftWraps st userPubkey).1
        (subscribeToGiftWraps st userPubkey).2).active = st.active := by
  refine ⟨by simp [subscribeToGiftWraps, subscribeMany], ?_, ?_⟩
  · intro p hp
    simp only [subscribeToGiftWraps, subscribeMany, List.mem_cons]
    exact Or.inr hp
  · simp only [subscribeToGiftWraps, subscribeMany, closeSubscription]
    rw [List.filter_cons]
    simp only [decide_not, ne_eq, decide_eq_true_eq, not_true_eq_false,
      Bool.not_true, Bool.false_eq_true, if_false]
    apply List.filter_eq_self.mpr
    intro p hp
    have := hfresh p hp
    simp
    omega

/-- Concrete instance: subscribing while one subscription is already active
leaves two subscriptions active. -/
theorem subscribeToGiftWraps_accumulates_witness :
    (subscribeToGiftWraps { nextId := 5, active := [(2, "alice")] } "alice").1.active.length
      = 2 :=
  (subscribeToGiftWraps_accumulates { nextId := 5, active := [(2, "alice")] } "alice"
    (by decide)).1

end GiftWrap

end OnChainDiscGolf
